import Mathlib

/-!
Shallow embedding of `src/app.py` (idling-mind/marathon-dash), the card
framework of an analytics dashboard.  The parts the claims are about:

* `generate_filter` (app.py 233-276): builds a filter control from a pandas
  Series, an input id and an optional default value.
* `HeatMap.update_filter_x` / `update_filter_y` (app.py 430-459): callbacks
  regenerating the dependent filter control when the governing column changes.
* `update_color_scheme` (app.py 693-705): the theme-change callback emitting
  one `Patch` per live chart id, each setting only `layout.template`.
* the `render` methods of the five card classes (settings reads with
  defaults).

Modelling conventions: pandas cells are `Cell` (missing = `Cell.na`,
categorical values = strings, numeric values = rationals); Dash/JSON
settings values are `SVal`; Python truthiness of `default_value or fallback`
is `pyOr`; a figure produced by a plotly-express call is a symbolic `Fig`
description (the plotting internals are a black box per the spec's
non-goals); raising Python code is `Except RenderError`.
-/

/-- The pandas dtypes that occur; `app.py` tests membership of
`column.dtype` in `["object", "string", "bool", "category"]`. -/
inductive Dtype where
  | object
  | string
  | bool
  | category
  | int64
  | float64
deriving DecidableEq

/-- The dtype test `column.dtype in ["object", "string", "bool", "category"]`
from app.py lines 240 and 294/302. -/
def Dtype.isCategorical : Dtype → Bool
  | .object => true
  | .string => true
  | .bool => true
  | .category => true
  | .int64 => false
  | .float64 => false

/-- One cell of a pandas Series: missing (None/NaN), a categorical value
(strings; booleans are modelled as their string form) or a number. -/
inductive Cell where
  | na
  | str (s : String)
  | num (q : ℚ)
deriving DecidableEq

/-- A pandas Series: a dtype tag plus the list of cells. -/
structure Series where
  dtype : Dtype
  cells : List Cell
deriving DecidableEq

/-- A scalar JSON value, as an element of a settings list (the app only
ever stores flat lists: checkbox selections are lists of strings, range
selections are two-element lists of numbers). -/
inductive Prim where
  | null
  | s (v : String)
  | n (v : ℚ)
deriving DecidableEq

/-- A Dash/JSON settings or callback value: None, a string, a number or a
(flat) list. -/
inductive SVal where
  | null
  | s (v : String)
  | n (v : ℚ)
  | list (vs : List Prim)
deriving DecidableEq

/-- Python truthiness of an `SVal` (None, "", 0 and [] are falsy). -/
def SVal.isTruthy : SVal → Bool
  | .null => false
  | .s v => !(v == "")
  | .n q => !(q == 0)
  | .list vs => !vs.isEmpty

/-- Python `a or b` as app.py uses it on filter defaults
(`default_value or sorted_unique`, `default_value or [min, max]`). -/
def pyOr (a b : SVal) : SVal :=
  if a.isTruthy then a else b

/-- Coarse Python `str()` of an `SVal`; only used to build default
description texts (presentation only, black-boxed for numbers/lists). -/
def SVal.pyStr : SVal → String
  | .null => "None"
  | .s v => v
  | .n _ => "<number>"
  | .list _ => "<list>"

def cellStr : Cell → Option String
  | .str s => some s
  | _ => none

def cellNum : Cell → Option ℚ
  | .num q => some q
  | _ => none

/-- The string values of a Series (missing cells contribute nothing). -/
def Series.strVals (s : Series) : List String :=
  s.cells.filterMap cellStr

/-- The numeric values of a Series (missing cells contribute nothing). -/
def Series.numVals (s : Series) : List ℚ :=
  s.cells.filterMap cellNum

/-- Whether a cell is missing. -/
def Cell.isNa : Cell → Bool
  | .na => true
  | _ => false

/-- `column.dropna()`: remove the missing cells, dtype unchanged. -/
def Series.dropna (s : Series) : Series :=
  ⟨s.dtype, s.cells.filter (fun c => !c.isNa)⟩

/-- Lexicographic comparison of char lists, structurally recursive (the
order Python's `sorted` uses on strings, by code point). -/
def charListLe : List Char → List Char → Bool
  | [], _ => true
  | _ :: _, [] => false
  | a :: as, b :: bs =>
    if a < b then true
    else if b < a then false
    else charListLe as bs

/-- String comparison by code points, as Python's `sorted` orders them. -/
def strLe (a b : String) : Prop :=
  charListLe a.toList b.toList = true

instance : DecidableRel strLe := fun a b =>
  inferInstanceAs (Decidable (charListLe a.toList b.toList = true))

/-- `sorted(column.unique().tolist())` of app.py line 241: the distinct
values in ascending (lexicographic) order. -/
def Series.sortedUnique (s : Series) : List String :=
  List.insertionSort strLe s.strVals.dedup

/-- `column.min()` over the numeric values (0 is a placeholder for the
empty column, whose pandas result would be NaN; theorems about the numeric
branch assume a nonempty column). -/
def listMin : List ℚ → ℚ
  | [] => 0
  | x :: xs => xs.foldl min x

/-- `column.max()` over the numeric values (placeholder 0 when empty). -/
def listMax : List ℚ → ℚ
  | [] => 0
  | x :: xs => xs.foldl max x

/-- A Dash pattern-matching component id
`{"type": "card-settings", "id": ..., "sub-id": ...}` (the constant
`"type"` entry is left implicit). -/
structure InputId where
  id : String
  subId : String
deriving DecidableEq

/-- The `dmc.CheckboxGroup` built in `generate_filter`'s categorical branch:
its id, its current `value` and the checkbox options (one per distinct
value). -/
structure CheckboxGroupCtl where
  ctlId : InputId
  value : SVal
  options : List String
deriving DecidableEq

/-- The `dmc.RangeSlider` built in `generate_filter`'s numeric branch:
its id, current `value`, `min`, `max` and `minRange` props. -/
structure RangeSliderCtl where
  ctlId : InputId
  value : SVal
  min : ℚ
  max : ℚ
  minRange : ℚ
deriving DecidableEq

/-- The three possible results of `generate_filter`: the non-interactive
"too many values" text, a checkbox group, or a range slider. -/
inductive FilterControl where
  | tooMany (msg : String)
  | checkboxes (c : CheckboxGroupCtl)
  | slider (r : RangeSliderCtl)
deriving DecidableEq

/-- `generate_filter(column, input_id, default_value=None)`, app.py
lines 233-276, transcribed clause by clause.  `default_value = SVal.null`
models the Python default `None`. -/
def generate_filter (column : Series) (input_id : InputId)
    (default_value : SVal) : FilterControl :=
  let column := column.dropna
  let card_id := input_id.id
  let filter_type := input_id.subId
  let out_id : InputId := ⟨card_id, filter_type ++ "-filter"⟩
  if column.dtype.isCategorical then
    let sorted_unique := column.sortedUnique
    if 300 < sorted_unique.length then
      .tooMany "Too many unique values to show filter"
    else
      .checkboxes ⟨out_id,
        pyOr default_value (.list (sorted_unique.map Prim.s)),
        sorted_unique⟩
  else
    .slider ⟨out_id,
      pyOr default_value
        (.list [Prim.n (listMin column.numVals),
                Prim.n (listMax column.numVals)]),
      listMin column.numVals,
      listMax column.numVals,
      (listMax column.numVals - listMin column.numVals) / 100⟩

/-! ### Theme patch engine (`update_color_scheme`, app.py 693-705) -/

/-- The two plotly templates the app uses. -/
inductive Template where
  | mantine_light
  | mantine_dark
deriving DecidableEq

/-- The layout part of a figure relevant here: the template plus the other
layout state (margins), which a theme patch must not touch. -/
structure Layout where
  template : Template
  margin : ℚ × ℚ × ℚ × ℚ
deriving DecidableEq

/-- A rendered plotly figure: computed traces plus a layout. -/
structure Figure where
  traces : List String
  layout : Layout
deriving DecidableEq

/-- A Dash `Patch()` as built by `update_color_scheme`: the only assignment
performed is `patched_figure["layout"]["template"] = template`, so the
patch carries exactly that optional field. -/
structure FigPatch where
  layoutTemplate : Option Template
deriving DecidableEq

/-- Applying a partial `Patch` to a previously rendered figure: only the
fields the patch assigned are overwritten. -/
def applyPatch (p : FigPatch) (f : Figure) : Figure :=
  { f with layout :=
      { f.layout with template := p.layoutTemplate.getD f.layout.template } }

/-- `update_color_scheme(color_scheme, figure_ids)`, app.py 698-705.
`color_scheme` is the `forceColorScheme` string (possibly absent);
`figure_ids` is the `ALL`-matched list of live chart ids; the result is the
positionally aligned list of patches (the appending loop is a map). -/
def update_color_scheme (color_scheme : Option String)
    (figure_ids : List String) : List FigPatch :=
  let template := if color_scheme = some "light" then Template.mantine_light
    else Template.mantine_dark
  figure_ids.map (fun _ => ⟨some template⟩)

/-! ### Card renders (settings reads with defaults) and filter callbacks -/

/-- The Python exceptions the embedded code can raise. -/
inductive RenderError where
  | missingKey (k : String)
  | keyError (msg : String)
  | typeError (msg : String)
deriving DecidableEq

/-- `true` unless the computation raised a missing-settings-key error. -/
def Except.noMissingKey {α : Type} : Except RenderError α → Bool
  | .error (.missingKey _) => false
  | _ => true

instance {ε α : Type} [DecidableEq ε] [DecidableEq α] :
    DecidableEq (Except ε α) := fun a b =>
  match a, b with
  | .error e, .error f =>
    if h : e = f then .isTrue (by rw [h]) else .isFalse (by simp [h])
  | .ok x, .ok y =>
    if h : x = y then .isTrue (by rw [h]) else .isFalse (by simp [h])
  | .error _, .ok _ => .isFalse (by simp)
  | .ok _, .error _ => .isFalse (by simp)

/-- A card's settings map: string keys to JSON values.  Keys are unordered
here; the app writes each key at most once. -/
def Settings : Type := List (String × SVal)

/-- `self.settings.get(k, dflt)`: the stored value when the key is present
(even if stored as None), else the fallback. -/
def Settings.get (st : Settings) (k : String) (dflt : SVal) : SVal :=
  match List.lookup k st with
  | some v => v
  | none => dflt

/-- `self.settings[k]` — a raw subscript, which raises `KeyError` on a
missing key.  No render method of app.py uses this form; it exists so that
"never raises on a missing settings key" is a falsifiable statement. -/
def Settings.getItem (st : Settings) (k : String) : Except RenderError SVal :=
  match List.lookup k st with
  | some v => .ok v
  | none => .error (.missingKey k)

/-- The in-memory dataframe `data`: named columns. -/
structure DataFrame where
  cols : List (String × Series)
deriving DecidableEq

/-- `data[v]` / `data.loc[:, [v]]` column access: `KeyError` when the label
is absent, `TypeError`-ish failure when the label is not a string. -/
def DataFrame.getCol (df : DataFrame) (v : SVal) : Except RenderError Series :=
  match v with
  | .s name =>
    match List.lookup name df.cols with
    | some c => .ok c
    | none => .error (.keyError name)
  | _ => .error (.typeError "column label must be a string")

/-- `filtered_data[x].isin(x_filter)` membership of one cell in a JSON
list (missing cells match nothing, as NaN does in pandas). -/
def cellInList (c : Cell) (vs : List Prim) : Bool :=
  vs.any fun v =>
    match c, v with
    | .str a, .s b => a == b
    | .num a, .n b => a == b
    | _, _ => false

/-- `(cell >= lo) & (cell <= hi)` for the numeric branch (NaN comparisons
are false in pandas, so missing cells are filtered out). -/
def cellInRange (c : Cell) (lo hi : ℚ) : Bool :=
  match c with
  | .num q => decide (lo ≤ q) && decide (q ≤ hi)
  | _ => false

/-- `filtered[column] == filter_value` equality of a cell with a scalar. -/
def cellEqSVal (c : Cell) (v : SVal) : Bool :=
  match c, v with
  | .str a, .s b => a == b
  | .num a, .n b => a == b
  | _, _ => false

/-- One axis-filter block of `HeatMap.render` (app.py 293-308): no-op when
the stored filter is None; `isin` filtering for a categorical column;
`x_filter[0] <= . <= x_filter[1]` filtering for a numeric one.  Rows are
(x, y) cell pairs; `onFst` selects which component the filter governs. -/
def applyAxisFilter (dtype : Dtype) (fv : SVal) (onFst : Bool)
    (rows : List (Cell × Cell)) : Except RenderError (List (Cell × Cell)) :=
  match fv with
  | .null => .ok rows
  | .list vs =>
    if dtype.isCategorical then
      .ok (rows.filter fun r => cellInList (if onFst then r.1 else r.2) vs)
    else
      match vs with
      | .n lo :: .n hi :: _ =>
        .ok (rows.filter fun r => cellInRange (if onFst then r.1 else r.2) lo hi)
      | _ => .error (.typeError "range filter needs two numbers")
  | _ =>
    if dtype.isCategorical then .error (.typeError "isin expects a list")
    else .error (.typeError "range filter expects a list")

/-- The symbolic result of a plotly-express call (the plotting internals
are out of scope; each constructor records exactly the inputs the app
passes). -/
inductive Fig where
  | scatterRace (racers : SVal) (template : Template)
  | histogram (x : SVal) (color : SVal) (nbins : SVal) (template : Template)
  | heatmap (rows : List (Cell × Cell)) (nbinsx nbinsy : SVal)
      (template : Template)
  | violin (x y : SVal) (template : Template)
deriving DecidableEq

/-- A rendered card view: a chart card (title text, description text,
figure) or the highlight card (suffix text, the aggregated cells with the
chosen aggregation name, icon). -/
inductive View where
  | card (title descr : SVal) (fig : Fig)
  | highlightCard (suffix : SVal) (aggCells : List Cell)
      (aggregation : SVal) (icon : SVal)
deriving DecidableEq

/-- `RacingCard.render` (app.py 42-93) at the settings level: reads
`racers`, `title`, `description`, each with a default; the position-data
preparation and scatter figure are symbolic (they read no settings and
only hard-coded dataset columns). -/
def RacingCard.render (st : Settings) : Except RenderError View :=
  let racers := Settings.get st "racers" (.list [.s "Average Person"])
  let title := Settings.get st "title" (.s "Marathon chart")
  let descr := Settings.get st "description" (.s "Groups of people racing")
  .ok (.card title descr (.scatterRace racers .mantine_light))

/-- `HistogramCard.render` (app.py 136-171): reads `column`, `color`,
`bins`, `title`, `description`, each with a default; `px.histogram` is
symbolic. -/
def HistogramCard.render (st : Settings) : Except RenderError View :=
  let column := Settings.get st "column" (.s "overallTimeMinutes")
  let color := Settings.get st "color" .null
  let nbins := Settings.get st "bins" (.n 20)
  let title := Settings.get st "title" (.s "Histogram")
  let descr := Settings.get st "description"
    (.s ("Histogram of " ++ column.pyStr ++ " coloured by " ++ color.pyStr))
  .ok (.card title descr (.histogram column color nbins .mantine_light))

/-- `HeatMap.render` (app.py 285-339): reads `x`, `x-filter`, `y`,
`y-filter`, `nbinsx`, `nbinsy`, `title`, `description`, each with a
default; selects the x/y columns from the dataframe (KeyError possible),
applies the stored axis filters, and produces a symbolic heatmap over the
row pairs. -/
def HeatMap.render (df : DataFrame) (st : Settings) :
    Except RenderError View :=
  let x := Settings.get st "x" (.s "minutesPerKM")
  let xFilter := Settings.get st "x-filter" .null
  let y := Settings.get st "y" (.s "ageBand")
  let yFilter := Settings.get st "y-filter" .null
  let nbinsx := Settings.get st "nbinsx" (.n 20)
  let nbinsy := Settings.get st "nbinsy" (.n 20)
  (df.getCol x).bind fun xcol =>
    (df.getCol y).bind fun ycol =>
      (applyAxisFilter xcol.dtype xFilter true
          (xcol.cells.zip ycol.cells)).bind fun rows1 =>
        (applyAxisFilter ycol.dtype yFilter false rows1).bind fun rows2 =>
          .ok (.card (Settings.get st "title" (.s "Heatmap"))
            (Settings.get st "description"
              (.s ("Heatmap of " ++ x.pyStr ++ " vs " ++ y.pyStr)))
            (.heatmap rows2 nbinsx nbinsy .mantine_light))

/-- `ViolinCard.render` (app.py 468-506): reads `x`, `y`, `title`,
`description` with defaults; `data[x].unique()` (the category order) needs
the x column to exist; the violin figure is symbolic. -/
def ViolinCard.render (df : DataFrame) (st : Settings) :
    Except RenderError View :=
  let x := Settings.get st "x" (.s "ageBand")
  let y := Settings.get st "y" (.s "overallTimeMinutes")
  (df.getCol x).bind fun _ =>
    .ok (.card (Settings.get st "title" (.s "Violin plot"))
      (Settings.get st "description"
        (.s ("Violin plot of " ++ y.pyStr ++ " by " ++ x.pyStr)))
      (.violin x y .mantine_light))

/-- `HightlightCard.render` (app.py 562-606): reads `column`,
`aggregation`, `column-filter`, `icon`, `suffix` with defaults; accesses
`data[column]` (KeyError possible), applies the scalar equality filter when
`column-filter` is not None; the aggregation itself is symbolic. -/
def HightlightCard.render (df : DataFrame) (st : Settings) :
    Except RenderError View :=
  let column := Settings.get st "column" (.s "gender")
  let aggregation := Settings.get st "aggregation" (.s "count")
  let filter_value := Settings.get st "column-filter" .null
  (df.getCol column).bind fun col =>
    let cells :=
      match filter_value with
      | .null => col.cells
      | fv => col.cells.filter (fun c => cellEqSVal c fv)
    .ok (.highlightCard (Settings.get st "suffix" (.s "Number of participants"))
      cells aggregation (Settings.get st "icon" (.s "mdi:star")))

/-- A Dash callback result: `no_update` or a value. -/
inductive DashResult (α : Type) where
  | noUpdate
  | update (a : α)
deriving DecidableEq

/-- `HeatMap.update_filter_x` (app.py 430-445): on a change of the `x`
column selection, look the column up (`data[value]`, which can raise),
return `no_update` when the context has no triggering id, else regenerate
the filter control via `generate_filter(column, input_id)` — with NO
`default_value`, i.e. the Python default `None` (`SVal.null` here); the
prior `x-filter` selection is not an input of the callback at all. -/
def update_filter_x (df : DataFrame) (value : SVal)
    (ctx_triggered : Option InputId) :
    Except RenderError (DashResult FilterControl) :=
  (df.getCol value).bind fun column =>
    match ctx_triggered with
    | none => .ok .noUpdate
    | some input_id => .ok (.update (generate_filter column input_id .null))

/-- `HeatMap.update_filter_y` (app.py 447-459): same body for the `y`
axis. -/
def update_filter_y (df : DataFrame) (value : SVal)
    (ctx_triggered : Option InputId) :
    Except RenderError (DashResult FilterControl) :=
  (df.getCol value).bind fun column =>
    match ctx_triggered with
    | none => .ok .noUpdate
    | some input_id => .ok (.update (generate_filter column input_id .null))

/-! ### Concrete fixtures used by witnesses and counterexamples -/

/-- An input id `{"type": "card-settings", "id": "card1", "sub-id": "x"}`. -/
def iid0 : InputId := ⟨"card1", "x"⟩

/-- A small categorical column with a missing cell. -/
def catColumn : Series := ⟨.object, [.str "b", .na, .str "a"]⟩

/-- A small numeric column ranging over [0, 100], with a missing cell. -/
def numColumn : Series := ⟨.float64, [.num 0, .num 100, .na, .num 40]⟩

/-- A numeric column whose minimum equals its maximum. -/
def constColumn : Series := ⟨.float64, [.num 5, .num 5, .na]⟩

/-- A tiny dataframe holding the fixture columns. -/
def df0 : DataFrame := ⟨[("cat", catColumn), ("num", numColumn)]⟩

/-- A rendered figure fixture (light template, some margin, one trace). -/
def fig0 : Figure := ⟨["trace1"], ⟨.mantine_light, (0, 0, 15, 0)⟩⟩

/-! ### Helper lemmas: the string order, fold extrema, cell projections -/

theorem charListLe_total : ∀ a b, charListLe a b = true ∨ charListLe b a = true := by
  intro a
  induction a with
  | nil => intro b; left; rfl
  | cons x xs ih =>
    intro b
    cases b with
    | nil => right; rfl
    | cons y ys =>
      by_cases h1 : x < y
      · left; simp [charListLe, h1]
      · by_cases h2 : y < x
        · right; simp [charListLe, h2, h1]
        · have := ih ys
          simp [charListLe, h1, h2]
          exact this

theorem charListLe_trans :
    ∀ a b c, charListLe a b = true → charListLe b c = true →
      charListLe a c = true := by
  intro a
  induction a with
  | nil => intro b c _ _; rfl
  | cons x xs ih =>
    intro b c hab hbc
    cases b with
    | nil => simp [charListLe] at hab
    | cons y ys =>
      cases c with
      | nil => simp [charListLe] at hbc
      | cons z zs =>
        by_cases hxy : x < y
        · by_cases hyz : y < z
          · simp [charListLe, lt_trans hxy hyz]
          · by_cases hzy : z < y
            · simp [charListLe, hyz, hzy] at hbc
            · have hyeq : y = z := le_antisymm (not_lt.mp hzy) (not_lt.mp hyz)
              subst hyeq
              simp [charListLe, hxy]
        · by_cases hyx : y < x
          · simp [charListLe, hxy, hyx] at hab
          · have hxeq : x = y := le_antisymm (not_lt.mp hyx) (not_lt.mp hxy)
            subst hxeq
            by_cases hyz : x < z
            · simp [charListLe, hyz]
            · by_cases hzy : z < x
              · simp [charListLe, hyz, hzy] at hbc
              · have hzeq : x = z := le_antisymm (not_lt.mp hzy) (not_lt.mp hyz)
                subst hzeq
                simp [charListLe, hxy] at hab hbc ⊢
                exact ih ys zs hab hbc

instance : IsTotal String strLe :=
  ⟨fun a b => charListLe_total a.toList b.toList⟩

instance : IsTrans String strLe :=
  ⟨fun a b c => charListLe_trans a.toList b.toList c.toList⟩

theorem foldl_min_le_init (l : List ℚ) (a : ℚ) : l.foldl min a ≤ a := by
  induction l generalizing a with
  | nil => simp
  | cons x xs ih =>
    exact le_trans (ih (min a x)) (min_le_left a x)

theorem foldl_min_mem (l : List ℚ) (a : ℚ) :
    l.foldl min a = a ∨ l.foldl min a ∈ l := by
  induction l generalizing a with
  | nil => left; rfl
  | cons x xs ih =>
    rcases ih (min a x) with h | h
    · rcases min_choice a x with hm | hm
      · left; rw [List.foldl_cons, h, hm]
      · right; rw [List.foldl_cons, h, hm]; exact List.mem_cons_self x xs
    · right; exact List.mem_cons_of_mem x h

theorem foldl_min_le_mem :
    ∀ (l : List ℚ) (a q : ℚ), q ∈ l → l.foldl min a ≤ q := by
  intro l
  induction l with
  | nil => intro a q h; cases h
  | cons x xs ih =>
    intro a q h
    rcases List.mem_cons.mp h with rfl | h2
    · exact le_trans (foldl_min_le_init xs (min a q)) (min_le_right a q)
    · exact ih (min a x) q h2

theorem foldl_max_init_le (l : List ℚ) (a : ℚ) : a ≤ l.foldl max a := by
  induction l generalizing a with
  | nil => simp
  | cons x xs ih =>
    exact le_trans (le_max_left a x) (ih (max a x))

theorem foldl_max_mem (l : List ℚ) (a : ℚ) :
    l.foldl max a = a ∨ l.foldl max a ∈ l := by
  induction l generalizing a with
  | nil => left; rfl
  | cons x xs ih =>
    rcases ih (max a x) with h | h
    · rcases max_choice a x with hm | hm
      · left; rw [List.foldl_cons, h, hm]
      · right; rw [List.foldl_cons, h, hm]; exact List.mem_cons_self x xs
    · right; exact List.mem_cons_of_mem x h

theorem foldl_max_mem_le :
    ∀ (l : List ℚ) (a q : ℚ), q ∈ l → q ≤ l.foldl max a := by
  intro l
  induction l with
  | nil => intro a q h; cases h
  | cons x xs ih =>
    intro a q h
    rcases List.mem_cons.mp h with rfl | h2
    · exact le_trans (le_max_right a q) (foldl_max_init_le xs (max a q))
    · exact ih (max a x) q h2

theorem listMin_mem (l : List ℚ) (h : l ≠ []) : listMin l ∈ l := by
  cases l with
  | nil => exact absurd rfl h
  | cons x xs =>
    rcases foldl_min_mem xs x with h2 | h2
    · rw [listMin, h2]; exact List.mem_cons_self x xs
    · exact List.mem_cons_of_mem x h2

theorem listMin_le (l : List ℚ) (q : ℚ) (hq : q ∈ l) : listMin l ≤ q := by
  cases l with
  | nil => cases hq
  | cons x xs =>
    rcases List.mem_cons.mp hq with rfl | h2
    · exact foldl_min_le_init xs q
    · exact foldl_min_le_mem xs x q h2

theorem listMax_mem (l : List ℚ) (h : l ≠ []) : listMax l ∈ l := by
  cases l with
  | nil => exact absurd rfl h
  | cons x xs =>
    rcases foldl_max_mem xs x with h2 | h2
    · rw [listMax, h2]; exact List.mem_cons_self x xs
    · exact List.mem_cons_of_mem x h2

theorem le_listMax (l : List ℚ) (q : ℚ) (hq : q ∈ l) : q ≤ listMax l := by
  cases l with
  | nil => cases hq
  | cons x xs =>
    rcases List.mem_cons.mp hq with rfl | h2
    · exact foldl_max_init_le xs q
    · exact foldl_max_mem_le xs x q h2

theorem cellStr_eq_some {c : Cell} {x : String} :
    cellStr c = some x ↔ c = .str x := by
  cases c <;> simp [cellStr]

theorem cellNum_eq_some {c : Cell} {q : ℚ} :
    cellNum c = some q ↔ c = .num q := by
  cases c <;> simp [cellNum]

theorem mem_strVals {x : String} {s : Series} :
    x ∈ s.strVals ↔ Cell.str x ∈ s.cells := by
  simp [Series.strVals, List.mem_filterMap, cellStr_eq_some]

theorem mem_numVals {q : ℚ} {s : Series} :
    q ∈ s.numVals ↔ Cell.num q ∈ s.cells := by
  simp [Series.numVals, List.mem_filterMap, cellNum_eq_some]

theorem dropna_strVals (s : Series) : s.dropna.strVals = s.strVals := by
  rcases s with ⟨d, cells⟩
  induction cells with
  | nil => rfl
  | cons c cs ih =>
    cases c <;>
      simp_all [Series.dropna, Series.strVals, List.filter, cellStr, Cell.isNa]

theorem dropna_numVals (s : Series) : s.dropna.numVals = s.numVals := by
  rcases s with ⟨d, cells⟩
  induction cells with
  | nil => rfl
  | cons c cs ih =>
    cases c <;>
      simp_all [Series.dropna, Series.numVals, List.filter, cellNum, Cell.isNa]

theorem dropna_dtype (s : Series) : s.dropna.dtype = s.dtype := rfl

theorem sortedUnique_sorted (s : Series) : List.Sorted strLe s.sortedUnique :=
  List.sorted_insertionSort strLe s.strVals.dedup

theorem sortedUnique_nodup (s : Series) : s.sortedUnique.Nodup :=
  ((List.perm_insertionSort strLe s.strVals.dedup).nodup_iff).mpr
    s.strVals.nodup_dedup

theorem mem_sortedUnique {x : String} {s : Series} :
    x ∈ s.sortedUnique ↔ x ∈ s.strVals := by
  rw [Series.sortedUnique,
    (List.perm_insertionSort strLe s.strVals.dedup).mem_iff, List.mem_dedup]

theorem noMissingKey_bind {α β : Type} (e : Except RenderError α)
    (f : α → Except RenderError β) (h1 : e.noMissingKey = true)
    (h2 : ∀ a, (f a).noMissingKey = true) :
    (e.bind f).noMissingKey = true := by
  cases e with
  | error err =>
    cases err with
    | missingKey k => exact absurd h1 (by simp [Except.noMissingKey])
    | keyError m => rfl
    | typeError m => rfl
  | ok a => exact h2 a

theorem noMissingKey_getCol (df : DataFrame) (v : SVal) :
    (df.getCol v).noMissingKey = true := by
  cases v <;> simp [DataFrame.getCol, Except.noMissingKey]
  case s name =>
    cases List.lookup name df.cols <;> simp [Except.noMissingKey]

theorem noMissingKey_applyAxisFilter (d : Dtype) (fv : SVal) (onFst : Bool)
    (rows : List (Cell × Cell)) :
    (applyAxisFilter d fv onFst rows).noMissingKey = true := by
  unfold applyAxisFilter
  split <;> try rfl
  · split
    · rfl
    · split <;> rfl
  · split <;> rfl

/-- Branch characterization of `generate_filter` for a categorical column
with at most 300 distinct values. -/
theorem generate_filter_categorical (s : Series) (iid : InputId) (dv : SVal)
    (hcat : s.dtype.isCategorical = true)
    (hlen : s.dropna.sortedUnique.length ≤ 300) :
    generate_filter s iid dv =
      .checkboxes ⟨⟨iid.id, iid.subId ++ "-filter"⟩,
        pyOr dv (.list (s.dropna.sortedUnique.map Prim.s)),
        s.dropna.sortedUnique⟩ := by
  have hd : s.dropna.dtype.isCategorical = true := by
    rw [dropna_dtype]; exact hcat
  simp only [generate_filter, hd, if_true]
  rw [if_neg (by omega)]

/-- Branch characterization of `generate_filter` for a categorical column
with more than 300 distinct values. -/
theorem generate_filter_tooMany (s : Series) (iid : InputId) (dv : SVal)
    (hcat : s.dtype.isCategorical = true)
    (hlen : 300 < s.dropna.sortedUnique.length) :
    generate_filter s iid dv =
      .tooMany "Too many unique values to show filter" := by
  have hd : s.dropna.dtype.isCategorical = true := by
    rw [dropna_dtype]; exact hcat
  simp only [generate_filter, hd, if_true]
  rw [if_pos hlen]

/-- Branch characterization of `generate_filter` for a numeric column. -/
theorem generate_filter_numeric (s : Series) (iid : InputId) (dv : SVal)
    (hnum : s.dtype.isCategorical = false) :
    generate_filter s iid dv =
      .slider ⟨⟨iid.id, iid.subId ++ "-filter"⟩,
        pyOr dv (.list [.n (listMin s.numVals), .n (listMax s.numVals)]),
        listMin s.numVals, listMax s.numVals,
        (listMax s.numVals - listMin s.numVals) / 100⟩ := by
  have hd : s.dropna.dtype.isCategorical = false := by
    rw [dropna_dtype]; exact hnum
  simp only [generate_filter, hd, Bool.false_eq_true, if_false, dropna_numVals]

/-- C3: for a categorical column, `generate_filter` returns the
non-interactive "too many values" notice exactly when the distinct
non-missing value count exceeds 300; otherwise a checkbox control whose
default value is the full distinct set, sorted, without duplicates, whose
members are exactly the column's non-missing values. -/
theorem c3_categorical_guard (s : Series) (iid : InputId)
    (hcat : s.dtype.isCategorical = true) :
    (300 < s.dropna.sortedUnique.length →
      generate_filter s iid .null =
        .tooMany "Too many unique values to show filter") ∧
    (s.dropna.sortedUnique.length ≤ 300 →
      generate_filter s iid .null =
        .checkboxes ⟨⟨iid.id, iid.subId ++ "-filter"⟩,
          .list (s.dropna.sortedUnique.map Prim.s),
          s.dropna.sortedUnique⟩) ∧
    List.Sorted strLe s.dropna.sortedUnique ∧
    s.dropna.sortedUnique.Nodup ∧
    (∀ x, x ∈ s.dropna.sortedUnique ↔ Cell.str x ∈ s.cells) := by
  refine ⟨fun hlen => generate_filter_tooMany s iid .null hcat hlen,
    fun hlen => ?_, sortedUnique_sorted s.dropna, sortedUnique_nodup s.dropna,
    fun x => ?_⟩
  · rw [generate_filter_categorical s iid .null hcat hlen]; rfl
  · rw [mem_sortedUnique, dropna_strVals, mem_strVals]

/-- C3 witness: the fixture categorical column (2 distinct values) yields
the checkbox control defaulting to the full sorted distinct set. -/
theorem c3_witness :
    generate_filter catColumn iid0 .null =
      .checkboxes ⟨⟨"card1", "x-filter"⟩, .list [.s "a", .s "b"], ["a", "b"]⟩ ∧
    ("a" ∈ catColumn.dropna.sortedUnique ↔ Cell.str "a" ∈ catColumn.cells) := by
  constructor
  · have h := (c3_categorical_guard catColumn iid0 (by decide)).2.1 (by decide)
    rw [h]; decide
  · exact (c3_categorical_guard catColumn iid0 (by decide)).2.2.2.2 "a"

/-- C4: for a numeric column with at least one non-missing value,
`generate_filter` returns a range slider whose bounds are the column's
minimum and maximum, whose default value is the full range, and whose
minimum selectable span is (max - min) / 100. -/
theorem c4_numeric_range (s : Series) (iid : InputId)
    (hnum : s.dtype.isCategorical = false) (hne : s.numVals ≠ []) :
    generate_filter s iid .null =
      .slider ⟨⟨iid.id, iid.subId ++ "-filter"⟩,
        .list [.n (listMin s.numVals), .n (listMax s.numVals)],
        listMin s.numVals, listMax s.numVals,
        (listMax s.numVals - listMin s.numVals) / 100⟩ ∧
    listMin s.numVals ∈ s.numVals ∧ listMax s.numVals ∈ s.numVals ∧
    (∀ q ∈ s.numVals, listMin s.numVals ≤ q ∧ q ≤ listMax s.numVals) := by
  refine ⟨?_, listMin_mem s.numVals hne, listMax_mem s.numVals hne,
    fun q hq => ⟨listMin_le s.numVals q hq, le_listMax s.numVals q hq⟩⟩
  rw [generate_filter_numeric s iid .null hnum]; rfl

/-- C4 witness: the fixture numeric column over [0, 100] yields the full
range as default and a minimum span of 1. -/
theorem c4_witness :
    generate_filter numColumn iid0 .null =
      .slider ⟨⟨"card1", "x-filter"⟩, .list [.n 0, .n 100], 0, 100, 1⟩ ∧
    (0 : ℚ) ∈ numColumn.numVals := by
  have h := c4_numeric_range numColumn iid0 (by decide) (by decide)
  constructor
  · rw [h.1]
    have hmin : listMin numColumn.numVals = 0 := by
      simp [numColumn, Series.numVals, cellNum, listMin]
    have hmax : listMax numColumn.numVals = 100 := by
      simp [numColumn, Series.numVals, cellNum, listMax]
      norm_num
    rw [hmin, hmax]
    norm_num
    exact ⟨by decide, by decide⟩
  · rw [← (by simp [numColumn, Series.numVals, cellNum, listMin] :
      listMin numColumn.numVals = 0)]
    exact h.2.1

/-- C5 counterexample: supplying an EMPTY selection as `default_value` to a
categorical `generate_filter` does not make the control's value that empty
selection — Python's `default_value or sorted_unique` treats the empty list
as falsy and falls back to the full sorted distinct set. -/
theorem c5_counterexample :
    generate_filter catColumn iid0 (.list []) =
      .checkboxes ⟨⟨"card1", "x-filter"⟩, .list [.s "a", .s "b"], ["a", "b"]⟩ ∧
    SVal.list [] ≠ SVal.list [.s "a", .s "b"] := by
  decide

/-- C5 amended: for a categorical column with at most 300 distinct values,
the produced control's value equals the supplied `default_value` when that
value is truthy (a non-empty selection); a falsy `default_value` — `None`
or the empty selection — is replaced by the full sorted distinct set. -/
theorem c5_default_value (s : Series) (iid : InputId) (dv : SVal)
    (hcat : s.dtype.isCategorical = true)
    (hlen : s.dropna.sortedUnique.length ≤ 300) :
    generate_filter s iid dv =
      .checkboxes ⟨⟨iid.id, iid.subId ++ "-filter"⟩,
        (if dv.isTruthy then dv
         else .list (s.dropna.sortedUnique.map Prim.s)),
        s.dropna.sortedUnique⟩ := by
  rw [generate_filter_categorical s iid dv hcat hlen]; rfl

/-- C5 witness: a non-empty supplied selection is kept as the control's
value. -/
theorem c5_witness :
    generate_filter catColumn iid0 (.list [.s "b"]) =
      .checkboxes ⟨⟨"card1", "x-filter"⟩, .list [.s "b"], ["a", "b"]⟩ := by
  rw [c5_default_value catColumn iid0 (.list [.s "b"]) (by decide) (by decide)]
  decide

/-- C7 counterexample: for a numeric column whose minimum equals its
maximum, `generate_filter` still produces the interactive range slider —
with equal bounds and a minimum span of 0 — rather than any disabled or
fixed display (no such fallback exists in the code). -/
theorem c7_counterexample :
    generate_filter constColumn iid0 .null =
      .slider ⟨⟨"card1", "x-filter"⟩, .list [.n 5, .n 5], 5, 5, 0⟩ := by
  have h := generate_filter_numeric constColumn iid0 .null (by decide)
  rw [h]
  have hv : constColumn.numVals = [5, 5] := by
    simp [constColumn, Series.numVals, cellNum]
  rw [hv]
  norm_num [listMin, listMax]
  exact ⟨by decide, by decide⟩

/-- C7 amended: when a numeric column's minimum equals its maximum,
`generate_filter` produces the ordinary range slider with `min = max`,
the degenerate full range as default value, and `minRange = 0`; it does
not fall back to a disabled or fixed display. -/
theorem c7_degenerate_slider (s : Series) (iid : InputId)
    (hnum : s.dtype.isCategorical = false)
    (heq : listMin s.numVals = listMax s.numVals) :
    generate_filter s iid .null =
      .slider ⟨⟨iid.id, iid.subId ++ "-filter"⟩,
        .list [.n (listMin s.numVals), .n (listMin s.numVals)],
        listMin s.numVals, listMin s.numVals, 0⟩ := by
  rw [generate_filter_numeric s iid .null hnum, ← heq]
  simp [pyOr, SVal.isTruthy]

/-- C7 witness: the amended statement at the constant fixture column. -/
theorem c7_witness :
    generate_filter constColumn iid0 .null =
      .slider ⟨⟨"card1", "x-filter"⟩,
        .list [.n (listMin constColumn.numVals),
               .n (listMin constColumn.numVals)],
        listMin constColumn.numVals, listMin constColumn.numVals, 0⟩ := by
  have h := c7_degenerate_slider constColumn iid0 (by decide)
    (by simp [constColumn, Series.numVals, cellNum, listMin, listMax])
  rw [h]
  rfl

/-- Inversion: a checkbox result of `generate_filter` always lists exactly
the sorted distinct values of the dropna'd column. -/
theorem generate_filter_checkboxes_inv {s : Series} {iid : InputId}
    {dv : SVal} {c : CheckboxGroupCtl}
    (h : generate_filter s iid dv = .checkboxes c) :
    c.options = s.dropna.sortedUnique := by
  by_cases hcat : s.dtype.isCategorical = true
  · by_cases hlen : 300 < s.dropna.sortedUnique.length
    · rw [generate_filter_tooMany s iid dv hcat hlen] at h; cases h
    · rw [generate_filter_categorical s iid dv hcat (by omega)] at h
      cases h; rfl
  · rw [generate_filter_numeric s iid dv (by simpa using hcat)] at h
    cases h

/-- Inversion: a slider result of `generate_filter` always has the
column's min/max of non-missing values as bounds. -/
theorem generate_filter_slider_inv {s : Series} {iid : InputId}
    {dv : SVal} {r : RangeSliderCtl}
    (h : generate_filter s iid dv = .slider r) :
    r.min = listMin s.numVals ∧ r.max = listMax s.numVals := by
  by_cases hcat : s.dtype.isCategorical = true
  · by_cases hlen : 300 < s.dropna.sortedUnique.length
    · rw [generate_filter_tooMany s iid dv hcat hlen] at h; cases h
    · rw [generate_filter_categorical s iid dv hcat (by omega)] at h
      cases h
  · rw [generate_filter_numeric s iid dv (by simpa using hcat)] at h
    cases h; exact ⟨rfl, rfl⟩

/-- C9: `generate_filter` drops missing values first — prepending a
missing cell changes nothing, every checkbox choice comes from an actual
non-missing value of the column, and both slider endpoints are actual
non-missing values (hence unaffected by missing cells). -/
theorem c9_missing_values_dropped (d : Dtype) (cells : List Cell)
    (iid : InputId) (dv : SVal) :
    generate_filter ⟨d, Cell.na :: cells⟩ iid dv =
      generate_filter ⟨d, cells⟩ iid dv ∧
    (∀ c x, generate_filter ⟨d, cells⟩ iid dv = .checkboxes c →
      x ∈ c.options → Cell.str x ∈ cells) ∧
    (∀ r, generate_filter ⟨d, cells⟩ iid dv = .slider r →
      Series.numVals ⟨d, cells⟩ ≠ [] →
      Cell.num r.min ∈ cells ∧ Cell.num r.max ∈ cells) := by
  refine ⟨?_, ?_, ?_⟩
  · have hdrop : (⟨d, Cell.na :: cells⟩ : Series).dropna =
        (⟨d, cells⟩ : Series).dropna := by
      simp [Series.dropna, List.filter, Cell.isNa]
    simp only [generate_filter, hdrop]
  · intro c x h hx
    rw [generate_filter_checkboxes_inv h] at hx
    have hsv : x ∈ Series.strVals ⟨d, cells⟩ := by
      rw [← dropna_strVals]; exact mem_sortedUnique.mp hx
    exact mem_strVals.mp hsv
  · intro r h hne
    obtain ⟨hmin, hmax⟩ := generate_filter_slider_inv h
    exact ⟨hmin ▸ mem_numVals.mp (listMin_mem _ hne),
      hmax ▸ mem_numVals.mp (listMax_mem _ hne)⟩

/-- C9 witness: prepending a missing cell to the fixture column leaves the
generated control unchanged, and the choice "a" comes from a real cell. -/
theorem c9_witness :
    generate_filter ⟨Dtype.object, Cell.na :: [Cell.str "b", Cell.str "a"]⟩
        iid0 .null =
      generate_filter ⟨Dtype.object, [Cell.str "b", Cell.str "a"]⟩ iid0 .null ∧
    Cell.str "a" ∈ [Cell.str "b", Cell.str "a"] := by
  refine ⟨(c9_missing_values_dropped Dtype.object
    [Cell.str "b", Cell.str "a"] iid0 .null).1, ?_⟩
  exact (c9_missing_values_dropped Dtype.object
      [Cell.str "b", Cell.str "a"] iid0 .null).2.1
    ⟨⟨"card1", "x-filter"⟩, .list [.s "a", .s "b"], ["a", "b"]⟩ "a"
    (by decide) (by decide)

/-- C1: when the governing column selection changes, the dependent filter
callbacks rebuild the control with `generate_filter(column, input_id)` and
NO default value — so the control carries the new column's "unfiltered"
default (full distinct set, or full range), and no previous selection can
be carried over (the prior filter value is not even an input of the
callback). -/
theorem c1_filter_regenerated (df : DataFrame) (value : SVal)
    (column : Series) (iid : InputId)
    (hcol : df.getCol value = .ok column) :
    update_filter_x df value (some iid) =
      .ok (.update (generate_filter column iid .null)) ∧
    update_filter_y df value (some iid) =
      .ok (.update (generate_filter column iid .null)) ∧
    (column.dtype.isCategorical = true →
      column.dropna.sortedUnique.length ≤ 300 →
      generate_filter column iid .null =
        .checkboxes ⟨⟨iid.id, iid.subId ++ "-filter"⟩,
          .list (column.dropna.sortedUnique.map Prim.s),
          column.dropna.sortedUnique⟩) ∧
    (column.dtype.isCategorical = false → column.numVals ≠ [] →
      generate_filter column iid .null =
        .slider ⟨⟨iid.id, iid.subId ++ "-filter"⟩,
          .list [.n (listMin column.numVals), .n (listMax column.numVals)],
          listMin column.numVals, listMax column.numVals,
          (listMax column.numVals - listMin column.numVals) / 100⟩) := by
  refine ⟨?_, ?_, ?_, ?_⟩
  · simp only [update_filter_x, hcol, Except.bind]
  · simp only [update_filter_y, hcol, Except.bind]
  · intro hcat hlen
    rw [generate_filter_categorical column iid .null hcat hlen]; rfl
  · intro hnum _
    rw [generate_filter_numeric column iid .null hnum]; rfl

/-- C1 witness: switching to the fixture categorical column regenerates a
checkbox control defaulting to the full distinct set. -/
theorem c1_witness :
    update_filter_x df0 (.s "cat") (some iid0) =
      .ok (.update (.checkboxes
        ⟨⟨"card1", "x-filter"⟩, .list [.s "a", .s "b"], ["a", "b"]⟩)) := by
  rw [(c1_filter_regenerated df0 (.s "cat") catColumn iid0 (by decide)).1]
  decide

/-- C2: the theme handler emits exactly one patch per live chart id
(positionally, none for anything else), and each emitted patch rewrites
only the layout template of a previously rendered figure, leaving the
computed traces and the rest of the layout untouched. -/
theorem c2_patch_per_chart (cs : Option String) (ids : List String) :
    update_color_scheme cs ids =
      ids.map (fun _ => ⟨some (if cs = some "light" then
        Template.mantine_light else Template.mantine_dark)⟩) ∧
    (update_color_scheme cs ids).length = ids.length ∧
    (∀ p, p ∈ update_color_scheme cs ids → ∀ f : Figure,
      (applyPatch p f).traces = f.traces ∧
      (applyPatch p f).layout.margin = f.layout.margin ∧
      (applyPatch p f).layout.template =
        (if cs = some "light" then Template.mantine_light
         else Template.mantine_dark)) := by
  refine ⟨rfl, by simp [update_color_scheme], ?_⟩
  intro p hp f
  simp only [update_color_scheme, List.mem_map] at hp
  obtain ⟨a, _, hpa⟩ := hp
  cases hpa
  simp [applyPatch]

/-- C2 witness: two live charts get exactly two patches; applying one to
the fixture figure changes only its template. -/
theorem c2_witness :
    (update_color_scheme none ["chart1", "chart2"]).length = 2 ∧
    (applyPatch ⟨some Template.mantine_dark⟩ fig0).traces = fig0.traces ∧
    (applyPatch ⟨some Template.mantine_dark⟩ fig0).layout.margin =
      fig0.layout.margin ∧
    (applyPatch ⟨some Template.mantine_dark⟩ fig0).layout.template =
      Template.mantine_dark := by
  have h := c2_patch_per_chart none ["chart1", "chart2"]
  have hp := h.2.2 ⟨some Template.mantine_dark⟩ (by decide) fig0
  exact ⟨h.2.1, hp.1, hp.2.1, hp.2.2⟩

/-- C8: every patch the theme handler emits sets the template to a fixed
value, so applying it twice to a rendered figure equals applying it
once. -/
theorem c8_patch_idempotent (cs : Option String) (ids : List String)
    (p : FigPatch) (f : Figure) (hp : p ∈ update_color_scheme cs ids) :
    applyPatch p (applyPatch p f) = applyPatch p f := by
  simp only [update_color_scheme, List.mem_map] at hp
  obtain ⟨a, _, hpa⟩ := hp
  cases hpa
  simp [applyPatch]

/-- C8 witness: idempotence at a concrete emitted patch and figure. -/
theorem c8_witness :
    applyPatch ⟨some Template.mantine_dark⟩
        (applyPatch ⟨some Template.mantine_dark⟩ fig0) =
      applyPatch ⟨some Template.mantine_dark⟩ fig0 :=
  c8_patch_idempotent (some "dark") ["chart1"] _ fig0 (by decide)

/-- C10: every emitted patch carries the light template exactly when the
theme signal is the string "light"; any other value — absent included —
yields the dark template. -/
theorem c10_light_else_dark (cs : Option String) (ids : List String)
    (p : FigPatch) (hp : p ∈ update_color_scheme cs ids) :
    (p.layoutTemplate = some Template.mantine_light ↔ cs = some "light") ∧
    (cs ≠ some "light" → p.layoutTemplate = some Template.mantine_dark) := by
  simp only [update_color_scheme, List.mem_map] at hp
  obtain ⟨a, _, hpa⟩ := hp
  cases hpa
  by_cases hcs : cs = some "light" <;> simp [hcs]

/-- C10 witness: an absent theme signal produces the dark template. -/
theorem c10_witness :
    FigPatch.mk (some Template.mantine_dark) ∈
      update_color_scheme none ["chart1"] ∧
    (FigPatch.mk (some Template.mantine_dark)).layoutTemplate =
      some Template.mantine_dark := by
  refine ⟨by decide, ?_⟩
  exact (c10_light_else_dark none ["chart1"] _ (by decide)).2 (by simp)

/-- C6: no card render ever raises on a missing settings key — every
settings field read has a fallback default.  For any settings map (the
empty one included) the racing and histogram renders succeed outright, and
the heatmap, violin and highlight renders never produce a missing-key
error (their only failure modes are dataset-column and value-type errors,
which do not depend on a settings key being absent). -/
theorem c6_no_missing_settings_key (df : DataFrame) (st : Settings) :
    (∃ v, RacingCard.render st = .ok v) ∧
    (∃ v, HistogramCard.render st = .ok v) ∧
    (HeatMap.render df st).noMissingKey = true ∧
    (ViolinCard.render df st).noMissingKey = true ∧
    (HightlightCard.render df st).noMissingKey = true := by
  refine ⟨⟨_, rfl⟩, ⟨_, rfl⟩, ?_, ?_, ?_⟩
  · show (Except.bind _ fun xcol => Except.bind _ fun ycol =>
      Except.bind _ fun rows1 => Except.bind _ fun rows2 =>
        Except.ok _).noMissingKey = true
    exact noMissingKey_bind _ _ (noMissingKey_getCol df _) fun xcol =>
      noMissingKey_bind _ _ (noMissingKey_getCol df _) fun ycol =>
        noMissingKey_bind _ _ (noMissingKey_applyAxisFilter _ _ _ _) fun rows1 =>
          noMissingKey_bind _ _ (noMissingKey_applyAxisFilter _ _ _ _) fun rows2 =>
            rfl
  · exact noMissingKey_bind _ _ (noMissingKey_getCol df _) fun _ => rfl
  · exact noMissingKey_bind _ _ (noMissingKey_getCol df _) fun _ => rfl
